import Mathlib

/-!
# keeper: the configuration loader (`source/config/config.h`)

A shallow embedding of `keep::config`: the `server` configuration record, the three
`read_value` specialisations, `parse_toml<server>`, the two `try_read` overloads and `read`.

The document library (`toml::table`, `toml::node_view`, `node::value_or`) and the standard
library (`std::filesystem::path`, `std::ifstream`) are collaborators of the header, not part
of it.  They are embedded here as far as the header uses them:

* a document is a tree of nodes; `table[key]` and `view[key]` yield a possibly empty view;
* `value_or` has the library's permissive retrieval: text only from a text node, an unsigned
  integer from an integer node that is representable, from a whole floating-point node that
  is representable, or from a boolean node;
* the parser itself and the file system are fields of `world`.

Unsigned machine integers are natural numbers; every value produced for an unsigned field is
reduced to the width of its type.
-/

namespace toml

/-- Payload of a floating-point node: `mantissa * 2 ^ exponent`, an infinity, or a NaN. -/
inductive fp where
  | finite (mantissa exponent : Int)
  | infinity (negative : Bool)
  | nan
  deriving DecidableEq, Repr

/-- A node of a parsed document (`toml::node`): one of the value kinds, an array or a table.
A table keeps its entries as key/value pairs; a key is looked up at its first occurrence. -/
inductive node where
  | string (s : String)
  | integer (i : Int)
  | floating_point (d : fp)
  | boolean (b : Bool)
  | date (year month day : Nat)
  | time (hour minute second nanosecond : Nat)
  | date_time (year month day hour minute second nanosecond : Nat) (offset : Option Int)
  | array (elements : List node)
  | table (entries : List (String × node))

/-- The document type `toml::table`: the entries of the root table. -/
abbrev table := List (String × node)

/-- A `toml::node_view`: a reference to a node, or empty when the path does not exist. -/
abbrev node_view := Option node

/-- The lookup `table::get(key)`: the node stored under `key`, if any. -/
def table_get (entries : table) (key : String) : Option node :=
  List.lookup key entries

/-- The subscript `table[key]`: a view of the entry under `key`, empty when there is none. -/
def table_index (t : table) (key : String) : node_view :=
  table_get t key

/-- The subscript `view[key]`: when the viewed node is a table, a view of its entry under
`key`; an empty view when the view is empty, the node is not a table, or the key is absent. -/
def view_index (v : node_view) (key : String) : node_view :=
  match v with
  | some (node.table entries) => table_get entries key
  | _ => none

/-- The least 64-bit signed integer. -/
def int64_min : Int := -(2 ^ 63)

/-- The greatest 64-bit signed integer. -/
def int64_max : Int := 2 ^ 63 - 1

/-- The library's `node_integer_cast<T>` for an unsigned `T` of `bits` bits: a negative value
has no representation; for a type narrower than 63 bits neither has a value above the type's
maximum; otherwise the value is converted with `static_cast<T>`. -/
def node_integer_cast (bits : Nat) (val : Int) : Option Nat :=
  if val < 0 then none
  else if bits < 63 ∧ val > 2 ^ bits - 1 then none
  else some (val.toNat % 2 ^ bits)

/-- The 64-bit signed integer a floating-point payload equals exactly, if there is one
(the test `static_cast<double>(static_cast<int64_t>(val)) == val` on a finite `val`). -/
def fp_whole (d : fp) : Option Int :=
  match d with
  | fp.finite m e =>
    if 0 ≤ e then
      let v := m * 2 ^ e.toNat
      if int64_min ≤ v ∧ v ≤ int64_max then some v else none
    else
      let q : Int := 2 ^ (-e).toNat
      if m % q = 0 ∧ int64_min ≤ m / q ∧ m / q ≤ int64_max then some (m / q) else none
  | _ => none

/-- The retrieval `node::value<T>()` for an unsigned integer type `T` of `bits` bits.  The
library documents it as permissive: an integer node is converted when representable, a
floating-point node when it is a whole number that is representable, and a boolean node is
retrieved as 0 or 1; no other node is converted. -/
def node_value_unsigned (bits : Nat) (n : node) : Option Nat :=
  match n with
  | node.integer val => node_integer_cast bits val
  | node.floating_point d =>
    match fp_whole d with
    | some val => node_integer_cast bits val
    | none => none
  | node.boolean b => some (if b then 1 else 0)
  | _ => none

/-- The retrieval `node::value<std::string>()`: text is only retrieved from a text node. -/
def node_value_string (n : node) : Option String :=
  match n with
  | node.string s => some s
  | _ => none

/-- The call `view.value_or(default_value)` with a `std::string` default. -/
def value_or_string (v : node_view) (default_value : String) : String :=
  match v with
  | some n => (node_value_string n).getD default_value
  | none => default_value

/-- The call `view.value_or(default_value)` with a `std::uint64_t` default. -/
def value_or_uint64 (v : node_view) (default_value : Nat) : Nat :=
  match v with
  | some n => (node_value_unsigned 64 n).getD default_value
  | none => default_value

/-- The call `view.value_or(default_value)` with a `std::uint32_t` default. -/
def value_or_uint32 (v : node_view) (default_value : Nat) : Nat :=
  match v with
  | some n => (node_value_unsigned 32 n).getD default_value
  | none => default_value

mutual

/-- The integers that appear in a node: the node itself when it is an integer, and the
integers of the elements of an array and of the values of a table. -/
def node_integers : node → List Int
  | node.integer i => [i]
  | node.array elements => nodes_integers elements
  | node.table entries => entries_integers entries
  | _ => []

/-- The integers that appear in the elements of an array. -/
def nodes_integers : List node → List Int
  | [] => []
  | n :: ns => node_integers n ++ nodes_integers ns

/-- The integers that appear in the entries of a table; for the root table, the integers
that appear in the document. -/
def entries_integers : List (String × node) → List Int
  | [] => []
  | (_, n) :: es => node_integers n ++ entries_integers es

end

end toml

namespace keep.config

/-- The unnamed member struct `server::threads`, with its default member initialisers. -/
structure server.threads_t where
  queue : Nat := 4
  request : Nat := 8
  deriving DecidableEq, Repr

/-- The unnamed member struct `server::responses`, with its default member initialisers. -/
structure server.responses_t where
  not_found : String := "./respond/404.json"
  success : String := "./respond/found.json"
  timeout : String := "./respond/timeout.json"
  deriving DecidableEq, Repr

/-- The configuration record `server`, with its default member initialisers. -/
structure server where
  ip : String := "127.0.0.1"
  port : String := "25565"
  timeout : Nat := 10000
  threads : server.threads_t := {}
  responses : server.responses_t := {}
  deriving DecidableEq, Repr

/-- The static member `server::name`. -/
def server.name : String := "server.config"

/-- The default-constructed record `server()`. -/
def server.default_constructed : server := {}

namespace detail

/-- The specialisation `read_value<std::string>`. -/
def read_value_string (node : toml.node_view) (defv : String) : String :=
  toml.value_or_string node defv

/-- The specialisation `read_value<std::uint64_t>`. -/
def read_value_uint64 (node : toml.node_view) (defv : Nat) : Nat :=
  toml.value_or_uint64 node defv

/-- The specialisation `read_value<std::uint32_t>`. -/
def read_value_uint32 (node : toml.node_view) (defv : Nat) : Nat :=
  toml.value_or_uint32 node defv

/-- The specialisation `parse_toml<server>`.  Both members of `threads` are read from
`table["threads"]["queue"]`, as in the source. -/
def parse_toml (table : toml.table) : server :=
  let defv := server.default_constructed
  { ip := read_value_string (toml.table_index table "ip") defv.ip
    port := read_value_string (toml.table_index table "port") defv.port
    timeout := read_value_uint64 (toml.table_index table "timeout") defv.timeout
    threads :=
      { queue := read_value_uint32
          (toml.view_index (toml.table_index table "threads") "queue") defv.threads.queue
        request := read_value_uint32
          (toml.view_index (toml.table_index table "threads") "queue") defv.threads.request }
    responses :=
      { not_found := read_value_string
          (toml.view_index (toml.table_index table "responses") "not_found")
          defv.responses.not_found
        success := read_value_string
          (toml.view_index (toml.table_index table "responses") "success")
          defv.responses.success
        timeout := read_value_string
          (toml.view_index (toml.table_index table "responses") "timeout")
          defv.responses.timeout } }

end detail

/-- How a call ends.  `returned`: a `return` statement delivered a value.  `thrown`: an
exception left the function.  `terminated`: an exception reached the boundary of a `noexcept`
function, which calls `std::terminate`.  `undefined`: control reached the closing brace of a
value-returning function without a `return` statement, so no value is delivered. -/
inductive outcome (α : Type) where
  | returned (value : α)
  | thrown (what : String)
  | terminated
  | undefined
  deriving DecidableEq, Repr

/-- What a call asks of its collaborators: opening a file for reading (`std::ifstream(file)`)
and parsing a text (`toml::parse(contents, path)`, with the path as source hint). -/
inductive event where
  | open_file (file : String)
  | parse (contents : String) (source_path : String)
  deriving DecidableEq, Repr

/-- A finished call: the requests it made, in order, and how it ended. -/
structure run (α : Type) where
  log : List event
  result : outcome α
  deriving DecidableEq, Repr

/-- The collaborators of the loader.  `files file` is `none` when the file cannot be opened
(it is missing, or access is denied); otherwise it is what reading the opened file to its
end gives: the text of the file, or the failure raised when the file opens but cannot be read
(a directory, for example).  `parse contents path` is `toml::parse`: the parsed document, or
the parse error it throws. -/
structure world where
  files : String → Option (Except String String)
  parse : String → String → Except String toml.table

/-- The concept `Configurable`: a configuration type has a `name` and a `parse_toml`. -/
structure Configurable (Config : Type) where
  name : String
  parse_toml : toml.table → Config

/-- The type `server` as a `Configurable`: `server::name` and `parse_toml<server>`. -/
def server.configurable : Configurable server :=
  ⟨server.name, detail.parse_toml⟩

/-- The path `p / q` of `std::filesystem::path` with `/` as separator: an absolute `q`
replaces `p`; otherwise `q` is appended, after a separator when `p` has a filename (is not
empty and does not end in a separator). -/
def path_append (p q : String) : String :=
  if q.data.head? = some '/' then q
  else if p.data = [] ∨ p.data.getLast? = some '/' then p ++ q
  else p ++ "/" ++ q

/-- Lines 99 and 100: the text obtained from `std::ifstream(file)` by iterating its stream
buffer to the end.  When the file could not be opened the stream is in a failed state, its
buffer yields no character and the text is empty.  When the file is open the buffer is read
to its end: this gives the text of the file, or the exception the buffer throws when reading
fails; the iterators read the buffer directly, so nothing catches it. -/
def stream_contents (w : world) (file : String) : Except String String :=
  match w.files file with
  | none => Except.ok ""
  | some reading => reading

/-- The effect of `noexcept` on a function body: an exception that would leave the function
terminates the program instead. -/
def noexcept {α : Type} (body : outcome α) : outcome α :=
  match body with
  | outcome.thrown _ => outcome.terminated
  | other => other

/-- The overload `detail::try_read(contents, path)`.  Its body is the single declaration
`const auto table = toml::parse(contents, path);`: the parser is called, and then control
reaches the end of the function.  There is no `return` statement and `parse_toml` is not
called. -/
def detail.try_read {Config : Type} (w : world) (_C : Configurable Config)
    (contents : String) (path : String) : run (Option Config) :=
  { log := [event.parse contents path]
    result := noexcept
      (match w.parse contents path with
       | Except.error what => outcome.thrown what
       | Except.ok _table => outcome.undefined) }

/-- The overload `try_read(folder)`: opens `folder / Config::name`, takes the text of the
stream and calls `try_read<Config>(contents, file)` with that text and the same path; the
callee is the overload of `detail`, the only one with two parameters.  The function is
`noexcept`: an exception thrown while the stream is read ends the program before the parser
is called. -/
def try_read {Config : Type} (w : world) (C : Configurable Config)
    (folder : String) : run (Option Config) :=
  let file := path_append folder C.name
  match stream_contents w file with
  | Except.ok contents =>
    let inner := detail.try_read w C contents file
    { log := event.open_file file :: inner.log
      result := noexcept inner.result }
  | Except.error what =>
    { log := [event.open_file file]
      result := noexcept (outcome.thrown what) }

/-- Lines 113 to 117 of `read`: the branch on the outcome of `try_read<Config>(folder)`.
A full optional is unwrapped and returned, an empty one raises the runtime error; when the
call did not return, neither branch is reached. -/
def read_branch {Config : Type} (attempted_read : outcome (Option Config)) : outcome Config :=
  match attempted_read with
  | outcome.returned (some value) => outcome.returned value
  | outcome.returned none => outcome.thrown "failed to read config"
  | outcome.thrown what => outcome.thrown what
  | outcome.terminated => outcome.terminated
  | outcome.undefined => outcome.undefined

/-- The function `read(folder)`: calls `try_read<Config>(folder)` and branches on it. -/
def read {Config : Type} (w : world) (C : Configurable Config) (folder : String) : run Config :=
  let attempted_read := try_read w C folder
  { log := attempted_read.log
    result := read_branch attempted_read.result }

/-! ### Example documents and an example world -/

/-- The document `ip = "10.0.0.5"`. -/
def doc_ip_only : toml.table :=
  [("ip", toml.node.string "10.0.0.5")]

/-- The document with the table `threads` holding only `request = 16`. -/
def doc_request_only : toml.table :=
  [("threads", toml.node.table [("request", toml.node.integer 16)])]

/-- The document with the table `threads` holding only `queue = 100`. -/
def doc_queue_only : toml.table :=
  [("threads", toml.node.table [("queue", toml.node.integer 100)])]

/-- The document with the table `threads` holding `queue = 100` and `request = "many"`. -/
def doc_queue_and_text_request : toml.table :=
  [("threads", toml.node.table
    [("queue", toml.node.integer 100), ("request", toml.node.string "many")])]

/-- The document with the table `threads` holding `queue = 7` and `request = [1, 2]`. -/
def doc_queue_and_array_request : toml.table :=
  [("threads", toml.node.table
    [("queue", toml.node.integer 7),
     ("request", toml.node.array [toml.node.integer 1, toml.node.integer 2])])]

/-- The document `doc_queue_and_array_request` with the entry `threads.request` removed. -/
def doc_queue_seven : toml.table :=
  [("threads", toml.node.table [("queue", toml.node.integer 7)])]

/-- The parser on three texts: the empty text is the empty document, the text
`ip = "10.0.0.5"` is `doc_ip_only`, and `ip =` (a key without a value) is a parse error.
No other text is used below; the table reports any other text as an error. -/
def sample_parse (contents _path : String) : Except String toml.table :=
  if contents = "" then Except.ok []
  else if contents = "ip = \"10.0.0.5\"" then Except.ok doc_ip_only
  else Except.error "parse error"

/-- A world in which no file exists. -/
def world_without_files : world :=
  { files := fun _ => none
    parse := sample_parse }

/-- A world whose only file is `cfg/server.config`, with the text `ip = "10.0.0.5"`. -/
def world_with_server_config : world :=
  { files := fun file =>
      if file = "cfg/server.config" then some (Except.ok "ip = \"10.0.0.5\"") else none
    parse := sample_parse }

/-- A world in which `cfg/server.config` is a directory: it opens, and reading it fails. -/
def world_with_directory : world :=
  { files := fun file =>
      if file = "cfg/server.config" then some (Except.error "error reading the file") else none
    parse := sample_parse }

/-- The document `threads = 5`: the entry `threads` is an integer, not a table. -/
def doc_threads_five : toml.table :=
  [("threads", toml.node.integer 5)]

/-- The document `responses = "none"` with `ip = "10.0.0.5"`: the entry `responses` is a
text, not a table. -/
def doc_responses_text : toml.table :=
  [("responses", toml.node.string "none"), ("ip", toml.node.string "10.0.0.5")]

/-- The document with the table `threads` holding only `queue = true`. -/
def doc_queue_true : toml.table :=
  [("threads", toml.node.table [("queue", toml.node.boolean true)])]

/-- The document `timeout = true`. -/
def doc_timeout_true : toml.table :=
  [("timeout", toml.node.boolean true)]

/-- The document `timeout = -5` with the table `threads` holding `queue = 4294967296`
(2 ^ 32) and `request = -1`. -/
def doc_unrepresentable : toml.table :=
  [("timeout", toml.node.integer (-5)),
   ("threads", toml.node.table
    [("queue", toml.node.integer 4294967296), ("request", toml.node.integer (-1))])]

/-- The document `ip = "10.0.0.5"`, `timeout = 250`, with `queue = 2` in the table
`threads` and `success = "ok.json"` in the table `responses`. -/
def doc_plain : toml.table :=
  [("ip", toml.node.string "10.0.0.5"),
   ("timeout", toml.node.integer 250),
   ("threads", toml.node.table [("queue", toml.node.integer 2)]),
   ("responses", toml.node.table [("success", toml.node.string "ok.json")])]

/-- The entries of `doc_plain` in another order, among keys that `parse_toml` does not read:
a top-level `motd`, an extra table `limits`, `request` and `stack` in `threads`, and
`banner` in `responses`. -/
def doc_plain_with_extras : toml.table :=
  [("motd", toml.node.string "hello"),
   ("responses", toml.node.table
    [("banner", toml.node.string "b.json"), ("success", toml.node.string "ok.json")]),
   ("limits", toml.node.table [("queue", toml.node.integer 77)]),
   ("threads", toml.node.table
    [("request", toml.node.integer 9), ("stack", toml.node.integer 1),
     ("queue", toml.node.integer 2)]),
   ("timeout", toml.node.integer 250),
   ("ip", toml.node.string "10.0.0.5")]

/-- The reader as the specification words it, for a coercion `coerce` of nodes to `T`: the
value found at the node, coerced to `T`, when the node is present and coercible; otherwise
the supplied default. -/
def value_reader {T : Type} (coerce : toml.node → Option T) (node : toml.node_view)
    (defv : T) : T :=
  match node with
  | none => defv
  | some n =>
    match coerce n with
    | some v => v
    | none => defv

/-! ### Reading one value -/

namespace detail

theorem read_value_string_of_absent (defv : String) :
    read_value_string none defv = defv := rfl

theorem read_value_string_of_string (s defv : String) :
    read_value_string (some (toml.node.string s)) defv = s := rfl

theorem read_value_uint64_of_absent (defv : Nat) :
    read_value_uint64 none defv = defv := rfl

theorem read_value_uint32_of_absent (defv : Nat) :
    read_value_uint32 none defv = defv := rfl

theorem read_value_uint64_of_integer (v defv : Nat) (h : v < 2 ^ 64) :
    read_value_uint64 (some (toml.node.integer (v : Int))) defv = v := by
  have h0 : ¬ ((v : Int) < 0) := by omega
  have h1 : ¬ (64 < 63 ∧ (v : Int) > 2 ^ 64 - 1) := by omega
  simp only [read_value_uint64, toml.value_or_uint64, toml.node_value_unsigned,
    toml.node_integer_cast, h0, h1, if_false, Int.toNat_ofNat,
    Nat.mod_eq_of_lt h, Option.getD_some]

theorem read_value_uint32_of_integer (v defv : Nat) (h : v < 2 ^ 32) :
    read_value_uint32 (some (toml.node.integer (v : Int))) defv = v := by
  have h0 : ¬ ((v : Int) < 0) := by omega
  have h1 : ¬ ((v : Int) > 2 ^ 32 - 1) := by
    have : ((v : Int) < 2 ^ 32) := by exact_mod_cast h
    omega
  have h2 : ¬ (32 < 63 ∧ (v : Int) > 2 ^ 32 - 1) := fun hh => h1 hh.2
  simp only [read_value_uint32, toml.value_or_uint32, toml.node_value_unsigned,
    toml.node_integer_cast, h0, h2, if_false, Int.toNat_ofNat,
    Nat.mod_eq_of_lt h, Option.getD_some]

/-! ### Building the server configuration -/

/-- Every field of the built record, as the read that produces it. -/
theorem parse_toml_fields (t : toml.table) :
    parse_toml t =
      { ip := read_value_string (toml.table_index t "ip") "127.0.0.1"
        port := read_value_string (toml.table_index t "port") "25565"
        timeout := read_value_uint64 (toml.table_index t "timeout") 10000
        threads :=
          { queue := read_value_uint32
              (toml.view_index (toml.table_index t "threads") "queue") 4
            request := read_value_uint32
              (toml.view_index (toml.table_index t "threads") "queue") 8 }
        responses :=
          { not_found := read_value_string
              (toml.view_index (toml.table_index t "responses") "not_found")
              "./respond/404.json"
            success := read_value_string
              (toml.view_index (toml.table_index t "responses") "success")
              "./respond/found.json"
            timeout := read_value_string
              (toml.view_index (toml.table_index t "responses") "timeout")
              "./respond/timeout.json" } } := rfl

/-- The seven fields that are read at their own path take a correctly-typed value from the
document unchanged. -/
theorem parse_toml_of_present (t : toml.table) :
    (∀ v, toml.table_index t "ip" = some (toml.node.string v) → (parse_toml t).ip = v) ∧
    (∀ v, toml.table_index t "port" = some (toml.node.string v) → (parse_toml t).port = v) ∧
    (∀ v : Nat, v < 2 ^ 64 →
      toml.table_index t "timeout" = some (toml.node.integer (v : Int)) →
      (parse_toml t).timeout = v) ∧
    (∀ v : Nat, v < 2 ^ 32 →
      toml.view_index (toml.table_index t "threads") "queue"
        = some (toml.node.integer (v : Int)) →
      (parse_toml t).threads.queue = v) ∧
    (∀ v, toml.view_index (toml.table_index t "responses") "not_found"
        = some (toml.node.string v) → (parse_toml t).responses.not_found = v) ∧
    (∀ v, toml.view_index (toml.table_index t "responses") "success"
        = some (toml.node.string v) → (parse_toml t).responses.success = v) ∧
    (∀ v, toml.view_index (toml.table_index t "responses") "timeout"
        = some (toml.node.string v) → (parse_toml t).responses.timeout = v) := by
  refine ⟨?_, ?_, ?_, ?_, ?_, ?_, ?_⟩
  · intro v h
    show read_value_string (toml.table_index t "ip") _ = v
    rw [h]; rfl
  · intro v h
    show read_value_string (toml.table_index t "port") _ = v
    rw [h]; rfl
  · intro v hv h
    show read_value_uint64 (toml.table_index t "timeout") _ = v
    rw [h]; exact read_value_uint64_of_integer v _ hv
  · intro v hv h
    show read_value_uint32 (toml.view_index (toml.table_index t "threads") "queue") _ = v
    rw [h]; exact read_value_uint32_of_integer v _ hv
  · intro v h
    show read_value_string (toml.view_index (toml.table_index t "responses") "not_found") _ = v
    rw [h]; rfl
  · intro v h
    show read_value_string (toml.view_index (toml.table_index t "responses") "success") _ = v
    rw [h]; rfl
  · intro v h
    show read_value_string (toml.view_index (toml.table_index t "responses") "timeout") _ = v
    rw [h]; rfl

/-- The seven fields that are read at their own path take their default when the document
has no entry there. -/
theorem parse_toml_of_absent (t : toml.table) :
    (toml.table_index t "ip" = none → (parse_toml t).ip = "127.0.0.1") ∧
    (toml.table_index t "port" = none → (parse_toml t).port = "25565") ∧
    (toml.table_index t "timeout" = none → (parse_toml t).timeout = 10000) ∧
    (toml.view_index (toml.table_index t "threads") "queue" = none →
      (parse_toml t).threads.queue = 4) ∧
    (toml.view_index (toml.table_index t "responses") "not_found" = none →
      (parse_toml t).responses.not_found = "./respond/404.json") ∧
    (toml.view_index (toml.table_index t "responses") "success" = none →
      (parse_toml t).responses.success = "./respond/found.json") ∧
    (toml.view_index (toml.table_index t "responses") "timeout" = none →
      (parse_toml t).responses.timeout = "./respond/timeout.json") := by
  refine ⟨?_, ?_, ?_, ?_, ?_, ?_, ?_⟩
  · intro h
    show read_value_string (toml.table_index t "ip") _ = _
    rw [h]; rfl
  · intro h
    show read_value_string (toml.table_index t "port") _ = _
    rw [h]; rfl
  · intro h
    show read_value_uint64 (toml.table_index t "timeout") _ = _
    rw [h]; rfl
  · intro h
    show read_value_uint32 (toml.view_index (toml.table_index t "threads") "queue") _ = _
    rw [h]; rfl
  · intro h
    show read_value_string (toml.view_index (toml.table_index t "responses") "not_found") _ = _
    rw [h]; rfl
  · intro h
    show read_value_string (toml.view_index (toml.table_index t "responses") "success") _ = _
    rw [h]; rfl
  · intro h
    show read_value_string (toml.view_index (toml.table_index t "responses") "timeout") _ = _
    rw [h]; rfl

/-- The empty document builds the default-constructed record. -/
theorem parse_toml_of_empty : parse_toml [] = server.default_constructed := rfl

/-- The field `threads.request` is whatever `threads.queue` makes of the entry
`threads.queue`, with 8 in place of 4 as the fallback. -/
theorem parse_toml_request (t : toml.table) :
    (parse_toml t).threads.request
      = read_value_uint32 (toml.view_index (toml.table_index t "threads") "queue") 8 := rfl

/-- C1: a correctly-typed value at a field's own path is built into that field.  The field
`threads.request` does not do so: in the document whose table `threads` holds only
`request = 16`, the entry at the path `threads.request` is the integer 16, and the record
built has `threads.request = 8`. -/
theorem parse_toml_request_entry_not_read :
    toml.view_index (toml.table_index doc_request_only "threads") "request"
        = some (toml.node.integer 16)
      ∧ (parse_toml doc_request_only).threads.request = 8
      ∧ (parse_toml doc_request_only).threads.request ≠ 16 :=
  ⟨rfl, by decide, by decide⟩

/-- C2: a field without an entry at its path is built as its documented default.  The field
`threads.request` does not do so: in the document whose table `threads` holds only
`queue = 100` there is no entry at the path `threads.request`, and the record built has
`threads.request = 100`, not the default 8. -/
theorem parse_toml_request_absent_not_default :
    toml.view_index (toml.table_index doc_queue_only "threads") "request" = none
      ∧ (parse_toml doc_queue_only).threads.request = 100
      ∧ (parse_toml doc_queue_only).threads.request ≠ 8 :=
  ⟨rfl, by decide, by decide⟩

/-- C3: the scenario `threads.queue = 100` with a text at `threads.request` is said to build
`threads.queue = 100` and `threads.request = 8`.  The record built has
`threads.queue = 100` and `threads.request = 100`. -/
theorem parse_toml_text_request_scenario :
    (parse_toml doc_queue_and_text_request).threads = { queue := 100, request := 100 }
      ∧ (parse_toml doc_queue_and_text_request).threads.request ≠ 8 :=
  ⟨by decide, by decide⟩

/-- C4: a value of the wrong kind at a field's path builds the field's documented default.
The field `threads.request` does not do so: with `threads.queue = 7` and an array at
`threads.request` the record built has `threads.request = 7`, not the default 8; it is the
value built when the entry `threads.request` is removed. -/
theorem parse_toml_array_request_not_default :
    toml.view_index (toml.table_index doc_queue_and_array_request "threads") "request"
        = some (toml.node.array [toml.node.integer 1, toml.node.integer 2])
      ∧ (parse_toml doc_queue_and_array_request).threads.request = 7
      ∧ (parse_toml doc_queue_and_array_request).threads.request ≠ 8
      ∧ (parse_toml doc_queue_seven).threads.request = 7 :=
  ⟨rfl, by decide, by decide, by decide⟩

/-- C9: the document whose only entry is `ip = "10.0.0.5"` builds the record with
`ip = "10.0.0.5"` and every other field at its documented default. -/
theorem parse_toml_ip_only :
    parse_toml doc_ip_only =
      { ip := "10.0.0.5"
        port := "25565"
        timeout := 10000
        threads := { queue := 4, request := 8 }
        responses :=
          { not_found := "./respond/404.json"
            success := "./respond/found.json"
            timeout := "./respond/timeout.json" } } := by
  decide

end detail

/-! ### Loading from a text and from a folder -/

theorem noexcept_eq_returned {α : Type} (body : outcome α) (v : α) :
    noexcept body = outcome.returned v ↔ body = outcome.returned v := by
  cases body <;> simp [noexcept]

theorem noexcept_ne_thrown {α : Type} (body : outcome α) (what : String) :
    noexcept body ≠ outcome.thrown what := by
  cases body <;> simp [noexcept]

/-- The outcome of `detail::try_read(contents, path)` in terms of the parser's verdict. -/
theorem detail.try_read_result {Config : Type} (w : world) (C : Configurable Config)
    (contents path : String) :
    (detail.try_read w C contents path).result
      = match w.parse contents path with
        | Except.error _ => outcome.terminated
        | Except.ok _ => outcome.undefined := by
  unfold detail.try_read
  cases w.parse contents path <;> rfl

/-- No call of `detail::try_read(contents, path)` returns an optional, full or empty. -/
theorem detail.try_read_text_never_returns {Config : Type} (w : world) (C : Configurable Config)
    (contents path : String) (o : Option Config) :
    (detail.try_read w C contents path).result ≠ outcome.returned o := by
  rw [detail.try_read_result]
  cases w.parse contents path <;> simp

/-- The requests of `try_read(folder)` in terms of what the stream gives. -/
theorem try_read_folder_log {Config : Type} (w : world) (C : Configurable Config)
    (folder : String) :
    (try_read w C folder).log
      = match stream_contents w (path_append folder C.name) with
        | Except.ok contents =>
          [event.open_file (path_append folder C.name),
           event.parse contents (path_append folder C.name)]
        | Except.error _ => [event.open_file (path_append folder C.name)] := by
  cases h : stream_contents w (path_append folder C.name) with
  | error what => simp only [try_read, h]
  | ok contents => simp only [try_read, h]; rfl

/-- The outcome of `try_read(folder)` in terms of what the stream gives. -/
theorem try_read_folder_result {Config : Type} (w : world) (C : Configurable Config)
    (folder : String) :
    (try_read w C folder).result
      = match stream_contents w (path_append folder C.name) with
        | Except.ok contents =>
          noexcept (detail.try_read w C contents (path_append folder C.name)).result
        | Except.error _ => outcome.terminated := by
  cases h : stream_contents w (path_append folder C.name) with
  | error what => simp only [try_read, h]; rfl
  | ok contents => simp only [try_read, h]

/-- Every call of `try_read(folder)` ends the program or ends without a value. -/
theorem try_read_folder_ends {Config : Type} (w : world) (C : Configurable Config)
    (folder : String) :
    (try_read w C folder).result = outcome.terminated
      ∨ (try_read w C folder).result = outcome.undefined := by
  rw [try_read_folder_result]
  cases stream_contents w (path_append folder C.name) with
  | error what => exact Or.inl rfl
  | ok contents =>
    show noexcept (detail.try_read w C contents (path_append folder C.name)).result = _
      ∨ noexcept (detail.try_read w C contents (path_append folder C.name)).result = _
    rw [detail.try_read_result]
    cases w.parse contents (path_append folder C.name) with
    | error what => exact Or.inl rfl
    | ok table => exact Or.inr rfl

/-- No call of `try_read(folder)` returns an optional, full or empty. -/
theorem try_read_folder_never_returns {Config : Type} (w : world) (C : Configurable Config)
    (folder : String) (o : Option Config) :
    (try_read w C folder).result ≠ outcome.returned o := by
  intro h
  rcases try_read_folder_ends w C folder with h1 | h1 <;> rw [h1] at h <;> cases h

/-- C5: for a text the parser accepts, `detail::try_read` is said to return a full optional
holding `parse_toml` of the parsed document.  For the text `ip = "10.0.0.5"`, which the
parser turns into `doc_ip_only`, the call makes its one request to the parser and then ends
without a value: it does not return the optional holding `parse_toml doc_ip_only`. -/
theorem detail.try_read_accepted_text :
    world_with_server_config.parse "ip = \"10.0.0.5\"" "cfg/server.config"
        = Except.ok doc_ip_only
      ∧ detail.try_read world_with_server_config server.configurable
          "ip = \"10.0.0.5\"" "cfg/server.config"
        = { log := [event.parse "ip = \"10.0.0.5\"" "cfg/server.config"]
            result := outcome.undefined }
      ∧ (detail.try_read world_with_server_config server.configurable
          "ip = \"10.0.0.5\"" "cfg/server.config").result
        ≠ outcome.returned (some (detail.parse_toml doc_ip_only)) :=
  ⟨rfl, by decide, by decide⟩

/-- C6: for a text the parser rejects, `detail::try_read` is said to return the empty
optional and never to abort.  For the text `ip =`, which the parser rejects, the parse error
leaves the parser inside a `noexcept` function: the call terminates the program and does not
return the empty optional. -/
theorem detail.try_read_rejected_text :
    world_without_files.parse "ip =" "cfg/server.config" = Except.error "parse error"
      ∧ (detail.try_read world_without_files server.configurable
          "ip =" "cfg/server.config").result = outcome.terminated
      ∧ (detail.try_read world_without_files server.configurable
          "ip =" "cfg/server.config").result ≠ outcome.returned none :=
  ⟨rfl, by decide, by decide⟩

/-- C7: for a folder without the file, `try_read(folder)` is said to return the empty
optional without loading empty contents.  In a world without files, `try_read` on the folder
`cfg` opens `cfg/server.config`, hands the empty text to the parser, and ends without a
value: it does not return the empty optional. -/
theorem try_read_missing_file :
    world_without_files.files "cfg/server.config" = none
      ∧ try_read world_without_files server.configurable "cfg"
        = { log := [event.open_file "cfg/server.config", event.parse "" "cfg/server.config"]
            result := outcome.undefined }
      ∧ (try_read world_without_files server.configurable "cfg").result
        ≠ outcome.returned none :=
  ⟨rfl, by decide, by decide⟩

/-- The branch of `read` on a returned optional: a full optional is unwrapped and returned,
an empty one raises the runtime error `failed to read config`; on the outcome of a `noexcept`
callee the branch returns a value or raises that error only when the callee returned. -/
theorem read_branch_outcomes {Config : Type} (attempted : outcome (Option Config)) :
    (∀ c, read_branch (noexcept attempted) = outcome.returned c
        ↔ noexcept attempted = outcome.returned (some c))
      ∧ (∀ what, read_branch (noexcept attempted) = outcome.thrown what
        ↔ (what = "failed to read config" ∧ noexcept attempted = outcome.returned none))
      ∧ (∀ o, noexcept attempted = outcome.returned o →
          read_branch (noexcept attempted)
            = match o with
              | some c => outcome.returned c
              | none => outcome.thrown "failed to read config") := by
  refine ⟨?_, ?_, ?_⟩
  · intro c
    cases attempted with
    | returned o => cases o <;> simp [noexcept, read_branch]
    | thrown what => simp [noexcept, read_branch]
    | terminated => simp [noexcept, read_branch]
    | undefined => simp [noexcept, read_branch]
  · intro what
    cases attempted with
    | returned o =>
      cases o <;> simp [noexcept, read_branch]
      exact eq_comm
    | thrown what2 => simp [noexcept, read_branch]
    | terminated => simp [noexcept, read_branch]
    | undefined => simp [noexcept, read_branch]
  · intro o h
    rw [h]
    cases o <;> rfl

/-- Every call of `read(folder)` ends the program or ends without a value: it neither
returns a configuration nor raises the runtime error. -/
theorem read_ends {Config : Type} (w : world) (C : Configurable Config) (folder : String) :
    ((read w C folder).result = outcome.terminated
        ∨ (read w C folder).result = outcome.undefined)
      ∧ (∀ c, (read w C folder).result ≠ outcome.returned c)
      ∧ (∀ what, (read w C folder).result ≠ outcome.thrown what) := by
  have h : (read w C folder).result = read_branch (try_read w C folder).result := rfl
  rcases try_read_folder_ends w C folder with h1 | h1
  · rw [h1] at h
    refine ⟨Or.inl h, ?_, ?_⟩
    · intro c hc
      rw [h] at hc
      cases hc
    · intro what hc
      rw [h] at hc
      cases hc
  · rw [h1] at h
    refine ⟨Or.inr h, ?_, ?_⟩
    · intro c hc
      rw [h] at hc
      cases hc
    · intro what hc
      rw [h] at hc
      cases hc

/-- C8: `read(folder)` is said to return the configuration when `try_read(folder)` is full,
to raise the runtime error `failed to read config` when it is empty, and to have no third
outcome.  In a world without files, `read` on the folder `cfg` does not raise the error: the
call of `try_read` ends without a value and so does `read`.  In a world where
`cfg/server.config` holds `ip = "10.0.0.5"`, `read` does not return the configuration built
from that document: it ends without a value as well. -/
theorem read_third_outcome :
    read world_without_files server.configurable "cfg"
        = { log := [event.open_file "cfg/server.config", event.parse "" "cfg/server.config"]
            result := outcome.undefined }
      ∧ (read world_without_files server.configurable "cfg").result
        ≠ outcome.thrown "failed to read config"
      ∧ read world_with_server_config server.configurable "cfg"
        = { log := [event.open_file "cfg/server.config",
                    event.parse "ip = \"10.0.0.5\"" "cfg/server.config"]
            result := outcome.undefined }
      ∧ (read world_with_server_config server.configurable "cfg").result
        ≠ outcome.returned (detail.parse_toml doc_ip_only) :=
  ⟨by decide, by decide, by decide, by decide⟩

/-- C10, as stated, fails in a world where `cfg/server.config` is a directory: `try_read` on
the folder `cfg` opens `cfg/server.config`, reading it fails, and the program ends before
the parser is called: no path is passed to the parser. -/
theorem try_read_directory_not_parsed :
    world_with_directory.files "cfg/server.config"
        = some (Except.error "error reading the file")
      ∧ try_read world_with_directory server.configurable "cfg"
        = { log := [event.open_file "cfg/server.config"]
            result := outcome.terminated } :=
  ⟨rfl, by decide⟩

/-- C10, amended: `try_read(folder)` opens the file `folder / Config::name` first, and opens
no other file.  When the text of that file is read, the parser is called with exactly that
text and with that same path as the source hint.  Whenever the parser is called, it is with
that path, and with the text of the file or, when the file could not be opened, the empty
text.  For the server configuration the name is `server.config`, so the file is
`folder / "server.config"`: `folder`, a separator unless `folder` is empty or ends in one,
and `server.config`.  In the world whose file `cfg/server.config` holds `ip = "10.0.0.5"`,
the folder `cfg` gives that text to the parser. -/
theorem try_read_opens_named_file {Config : Type} (w : world) (C : Configurable Config)
    (folder : String) :
    (∀ contents, w.files (path_append folder C.name) = some (Except.ok contents) →
        (try_read w C folder).log
          = [event.open_file (path_append folder C.name),
             event.parse contents (path_append folder C.name)])
      ∧ (try_read w C folder).log.head? = some (event.open_file (path_append folder C.name))
      ∧ (∀ file, event.open_file file ∈ (try_read w C folder).log →
          file = path_append folder C.name)
      ∧ (∀ contents path, event.parse contents path ∈ (try_read w C folder).log →
          path = path_append folder C.name
          ∧ (w.files (path_append folder C.name) = some (Except.ok contents)
            ∨ (w.files (path_append folder C.name) = none ∧ contents = "")))
      ∧ server.configurable.name = "server.config"
      ∧ path_append folder "server.config"
        = (if folder.data = [] ∨ folder.data.getLast? = some '/'
            then folder ++ "server.config" else folder ++ "/" ++ "server.config")
      ∧ path_append "cfg" "server.config" = "cfg/server.config"
      ∧ try_read world_with_server_config server.configurable "cfg"
        = { log := [event.open_file "cfg/server.config",
                    event.parse "ip = \"10.0.0.5\"" "cfg/server.config"]
            result := outcome.undefined } := by
  have hlog := try_read_folder_log w C folder
  refine ⟨?_, ?_, ?_, ?_, rfl, ?_, by decide, by decide⟩
  · intro contents h
    have hs : stream_contents w (path_append folder C.name) = Except.ok contents := by
      simp [stream_contents, h]
    rw [hlog, hs]
  · rw [hlog]
    cases stream_contents w (path_append folder C.name) <;> rfl
  · intro file hmem
    rw [hlog] at hmem
    cases hs : stream_contents w (path_append folder C.name) with
    | error what =>
      rw [hs] at hmem
      simpa using hmem
    | ok contents =>
      rw [hs] at hmem
      simpa using hmem
  · intro contents path hmem
    rw [hlog] at hmem
    cases hs : stream_contents w (path_append folder C.name) with
    | error what =>
      rw [hs] at hmem
      simp at hmem
    | ok text =>
      rw [hs] at hmem
      simp at hmem
      obtain ⟨hc, hp⟩ := hmem
      refine ⟨hp, ?_⟩
      subst hc
      unfold stream_contents at hs
      cases hf : w.files (path_append folder C.name) with
      | none =>
        rw [hf] at hs
        exact Or.inr ⟨rfl, by cases hs; rfl⟩
      | some reading =>
        rw [hf] at hs
        exact Or.inl (by rw [show reading = Except.ok contents from hs])
  · unfold path_append
    rw [if_neg (by decide)]

/-! ### Conversions of the document library -/

theorem node_integer_cast_eq_some (bits : Nat) (i : Int) (r : Nat)
    (h : toml.node_integer_cast bits i = some r) :
    0 ≤ i ∧ r = i.toNat % 2 ^ bits ∧ (bits < 63 → i ≤ 2 ^ bits - 1) := by
  unfold toml.node_integer_cast at h
  by_cases h0 : i < 0
  · simp [h0] at h
  · rw [if_neg h0] at h
    by_cases h1 : bits < 63 ∧ i > 2 ^ bits - 1
    · simp [h1] at h
    · rw [if_neg h1] at h
      refine ⟨by omega, (Option.some.inj h).symm, ?_⟩
      intro hb
      by_contra hgt
      exact h1 ⟨hb, by omega⟩

theorem node_integer_cast_of_negative (bits : Nat) (i : Int) (h : i < 0) :
    toml.node_integer_cast bits i = none := by
  simp [toml.node_integer_cast, h]

theorem node_integer_cast_32_of_large (i : Int) (h : 2 ^ 32 - 1 < i) :
    toml.node_integer_cast 32 i = none := by
  unfold toml.node_integer_cast
  by_cases h0 : i < 0
  · simp [h0]
  · rw [if_neg h0, if_pos ⟨by decide, h⟩]

theorem fp_whole_range (d : toml.fp) (i : Int) (h : toml.fp_whole d = some i) :
    toml.int64_min ≤ i ∧ i ≤ toml.int64_max := by
  cases d with
  | finite m e =>
    unfold toml.fp_whole at h
    by_cases he : 0 ≤ e
    · simp only [he, if_true] at h
      split at h
      · rename_i hr
        cases h
        exact hr
      · cases h
    · simp only [he, if_false] at h
      split at h
      · rename_i hr
        cases h
        exact hr.2
      · cases h
  | infinity negative => simp [toml.fp_whole] at h
  | nan => simp [toml.fp_whole] at h

/-- What a node is when the retrieval of an unsigned integer from it succeeds. -/
theorem node_value_unsigned_eq_some (bits : Nat) (n : toml.node) (r : Nat)
    (h : toml.node_value_unsigned bits n = some r) :
    (∃ i, n = toml.node.integer i ∧ toml.node_integer_cast bits i = some r)
      ∨ (∃ d i, n = toml.node.floating_point d ∧ toml.fp_whole d = some i
          ∧ toml.node_integer_cast bits i = some r)
      ∨ (∃ b, n = toml.node.boolean b ∧ r = if b then 1 else 0) := by
  cases n with
  | integer i => exact Or.inl ⟨i, rfl, h⟩
  | floating_point d =>
    right; left
    unfold toml.node_value_unsigned at h
    cases hd : toml.fp_whole d with
    | none => simp [hd] at h
    | some i =>
      simp only [hd] at h
      exact ⟨d, i, rfl, hd, h⟩
  | boolean b =>
    right; right
    exact ⟨b, rfl, (Option.some.inj h).symm⟩
  | string s => simp [toml.node_value_unsigned] at h
  | date y m d => simp [toml.node_value_unsigned] at h
  | time a b c d => simp [toml.node_value_unsigned] at h
  | date_time a b c d e f g o => simp [toml.node_value_unsigned] at h
  | array es => simp [toml.node_value_unsigned] at h
  | table es => simp [toml.node_value_unsigned] at h

/-! ### The integers of a document -/

theorem integers_of_lookup (key : String) (n : toml.node) :
    ∀ entries : List (String × toml.node), List.lookup key entries = some n →
      ∀ i ∈ toml.node_integers n, i ∈ toml.entries_integers entries
  | [], h => by simp at h
  | (k, m) :: es, h => by
    intro i hi
    rw [List.lookup_cons] at h
    simp only [toml.entries_integers, List.mem_append]
    cases hk : key == k with
    | true =>
      simp only [hk] at h
      cases h
      exact Or.inl hi
    | false =>
      simp only [hk] at h
      exact Or.inr (integers_of_lookup key n es h i hi)

theorem integers_of_table_index (t : toml.table) (key : String) (n : toml.node)
    (h : toml.table_index t key = some n) :
    ∀ i ∈ toml.node_integers n, i ∈ toml.entries_integers t :=
  integers_of_lookup key n t h

theorem integers_of_view_index (t : toml.table) (group key : String) (n : toml.node)
    (h : toml.view_index (toml.table_index t group) key = some n) :
    ∀ i ∈ toml.node_integers n, i ∈ toml.entries_integers t := by
  intro i hi
  cases hg : toml.table_index t group with
  | none => simp [hg, toml.view_index] at h
  | some g =>
    cases g with
    | table entries =>
      rw [hg] at h
      have h1 : i ∈ toml.entries_integers entries :=
        integers_of_lookup key n entries h i hi
      exact integers_of_table_index t group (toml.node.table entries) hg i
        (by simpa [toml.node_integers] using h1)
    | string s => simp [hg, toml.view_index] at h
    | integer v => simp [hg, toml.view_index] at h
    | floating_point d => simp [hg, toml.view_index] at h
    | boolean b => simp [hg, toml.view_index] at h
    | date y m d => simp [hg, toml.view_index] at h
    | time a b c d => simp [hg, toml.view_index] at h
    | date_time a b c d e f g o => simp [hg, toml.view_index] at h
    | array es => simp [hg, toml.view_index] at h

/-! ### The reader against its specification -/

theorem value_reader_of_getD {T : Type} (coerce : toml.node → Option T)
    (node : toml.node_view) (defv : T) :
    (match node with
      | some n => (coerce n).getD defv
      | none => defv) = value_reader coerce node defv := by
  cases node with
  | none => rfl
  | some n =>
    show (coerce n).getD defv = value_reader coerce (some n) defv
    cases h : coerce n <;> simp [value_reader, h]

/-- The three `read_value` specialisations as readers of the specification. -/
theorem detail.read_value_as_value_reader (node : toml.node_view) :
    (∀ defv, detail.read_value_string node defv
        = value_reader toml.node_value_string node defv)
      ∧ (∀ defv, detail.read_value_uint64 node defv
        = value_reader (toml.node_value_unsigned 64) node defv)
      ∧ (∀ defv, detail.read_value_uint32 node defv
        = value_reader (toml.node_value_unsigned 32) node defv) :=
  ⟨fun defv => value_reader_of_getD toml.node_value_string node defv,
   fun defv => value_reader_of_getD (toml.node_value_unsigned 64) node defv,
   fun defv => value_reader_of_getD (toml.node_value_unsigned 32) node defv⟩

/-- C11: each of the three `read_value` specialisations is the reader of the specification
for the library's retrieval of its type: on a present node holding a convertible value it is
that value, and on an absent node or a node whose value is not convertible it is the default.
It is a function of the node and the default, with a result for every pair. -/
theorem detail.read_value_refines_value_reader (node : toml.node_view) :
    (∀ defv, detail.read_value_string node defv
        = value_reader toml.node_value_string node defv)
      ∧ (∀ defv, detail.read_value_uint64 node defv
        = value_reader (toml.node_value_unsigned 64) node defv)
      ∧ (∀ defv, detail.read_value_uint32 node defv
        = value_reader (toml.node_value_unsigned 32) node defv)
      ∧ (∀ (T : Type) (coerce : toml.node → Option T) (n : toml.node) (v defv : T),
          coerce n = some v → value_reader coerce (some n) defv = v)
      ∧ (∀ (T : Type) (coerce : toml.node → Option T) (n : toml.node) (defv : T),
          coerce n = none → value_reader coerce (some n) defv = defv)
      ∧ (∀ (T : Type) (coerce : toml.node → Option T) (defv : T),
          value_reader coerce none defv = defv) := by
  refine ⟨?_, ?_, ?_, ?_, ?_, ?_⟩
  · intro defv
    exact value_reader_of_getD toml.node_value_string node defv
  · intro defv
    exact value_reader_of_getD (toml.node_value_unsigned 64) node defv
  · intro defv
    exact value_reader_of_getD (toml.node_value_unsigned 32) node defv
  · intro T coerce n v defv h
    simp [value_reader, h]
  · intro T coerce n defv h
    simp [value_reader, h]
  · intro T coerce defv
    rfl

/-! ### Groups that are absent or not tables -/

theorem view_index_of_not_table (v : toml.node_view)
    (h : ∀ entries, v ≠ some (toml.node.table entries)) (key : String) :
    toml.view_index v key = none := by
  cases v with
  | none => rfl
  | some n =>
    cases n with
    | table entries => exact absurd rfl (h entries)
    | string s => rfl
    | integer i => rfl
    | floating_point d => rfl
    | boolean b => rfl
    | date y m d => rfl
    | time a b c d => rfl
    | date_time a b c d e f g o => rfl
    | array es => rfl

/-- C12: `parse_toml<server>` has a result for every document.  When the entry `threads` is
absent or is not a table, every lookup of a key under it is an absent node and the group is
built as `queue = 4`, `request = 8`; when the entry `responses` is absent or is not a table,
likewise, and the three response paths are built as their defaults.  The documents
`threads = 5` and `responses = "none"` are two such documents. -/
theorem detail.parse_toml_total_on_groups (t : toml.table) :
    (∃ built : server, detail.parse_toml t = built)
      ∧ ((∀ entries, toml.table_index t "threads" ≠ some (toml.node.table entries)) →
          (∀ key, toml.view_index (toml.table_index t "threads") key = none)
          ∧ (detail.parse_toml t).threads = { queue := 4, request := 8 })
      ∧ ((∀ entries, toml.table_index t "responses" ≠ some (toml.node.table entries)) →
          (∀ key, toml.view_index (toml.table_index t "responses") key = none)
          ∧ (detail.parse_toml t).responses
            = { not_found := "./respond/404.json"
                success := "./respond/found.json"
                timeout := "./respond/timeout.json" })
      ∧ (detail.parse_toml doc_threads_five).threads = { queue := 4, request := 8 }
      ∧ detail.parse_toml doc_responses_text = { ip := "10.0.0.5" } := by
  refine ⟨⟨_, rfl⟩, ?_, ?_, by decide, by decide⟩
  · intro h
    have hv := view_index_of_not_table _ h
    refine ⟨hv, ?_⟩
    rw [detail.parse_toml_fields]
    simp only [hv]
    rfl
  · intro h
    have hv := view_index_of_not_table _ h
    refine ⟨hv, ?_⟩
    rw [detail.parse_toml_fields]
    simp only [hv]
    rfl

/-! ### What the built record depends on -/

/-- C14: two documents with the same nodes at the seven paths that `parse_toml<server>` reads
(`ip`, `port`, `timeout`, `threads.queue`, `responses.not_found`, `responses.success`,
`responses.timeout`) build equal records. -/
theorem detail.parse_toml_depends_on_read_paths (t1 t2 : toml.table)
    (h_ip : toml.table_index t1 "ip" = toml.table_index t2 "ip")
    (h_port : toml.table_index t1 "port" = toml.table_index t2 "port")
    (h_timeout : toml.table_index t1 "timeout" = toml.table_index t2 "timeout")
    (h_queue : toml.view_index (toml.table_index t1 "threads") "queue"
      = toml.view_index (toml.table_index t2 "threads") "queue")
    (h_not_found : toml.view_index (toml.table_index t1 "responses") "not_found"
      = toml.view_index (toml.table_index t2 "responses") "not_found")
    (h_success : toml.view_index (toml.table_index t1 "responses") "success"
      = toml.view_index (toml.table_index t2 "responses") "success")
    (h_response_timeout : toml.view_index (toml.table_index t1 "responses") "timeout"
      = toml.view_index (toml.table_index t2 "responses") "timeout") :
    detail.parse_toml t1 = detail.parse_toml t2 := by
  rw [detail.parse_toml_fields, detail.parse_toml_fields, h_ip, h_port, h_timeout, h_queue,
    h_not_found, h_success, h_response_timeout]

/-- C14 at two documents: `doc_plain` and `doc_plain_with_extras` hold the same nodes at the
seven paths, in another order and among unknown keys and an extra table, and build equal
records. -/
theorem detail.parse_toml_depends_on_read_paths_witness :
    detail.parse_toml doc_plain = detail.parse_toml doc_plain_with_extras :=
  detail.parse_toml_depends_on_read_paths doc_plain doc_plain_with_extras
    rfl rfl rfl rfl rfl rfl rfl

/-! ### The thread counts -/

/-- C13, as stated, fails at the document whose table `threads` holds only `queue = true`:
the entry `threads.queue` is a boolean, not an integer, and the record built has
`threads.queue = 1` and `threads.request = 1`, not 4 and 8. -/
theorem detail.parse_toml_boolean_queue :
    toml.view_index (toml.table_index doc_queue_true "threads") "queue"
        = some (toml.node.boolean true)
      ∧ (detail.parse_toml doc_queue_true).threads = { queue := 1, request := 1 }
      ∧ (detail.parse_toml doc_queue_true).threads ≠ { queue := 4, request := 8 } :=
  ⟨rfl, by decide, by decide⟩

/-- C13, amended: two documents that differ only at `threads.request` build equal records;
when `threads.queue` holds a value that the retrieval converts to a 32-bit unsigned integer
`v` (in particular an integer `v` below `2 ^ 32`), the record built has
`threads.queue = threads.request = v`; when `threads.queue` is absent or holds a value that
the retrieval does not convert, it has `threads.queue = 4` and `threads.request = 8`. -/
theorem detail.parse_toml_request_follows_queue (t : toml.table) :
    (∀ t2 : toml.table,
        (∀ key, key ≠ "threads" → toml.table_index t key = toml.table_index t2 key) →
        (∀ key, key ≠ "request" →
          toml.view_index (toml.table_index t "threads") key
            = toml.view_index (toml.table_index t2 "threads") key) →
        detail.parse_toml t = detail.parse_toml t2)
      ∧ (∀ v : Nat, v < 2 ^ 32 →
          toml.view_index (toml.table_index t "threads") "queue"
            = some (toml.node.integer (v : Int)) →
          (detail.parse_toml t).threads = { queue := v, request := v })
      ∧ (∀ (n : toml.node) (v : Nat),
          toml.view_index (toml.table_index t "threads") "queue" = some n →
          toml.node_value_unsigned 32 n = some v →
          (detail.parse_toml t).threads = { queue := v, request := v })
      ∧ ((toml.view_index (toml.table_index t "threads") "queue" = none
            ∨ ∃ n, toml.view_index (toml.table_index t "threads") "queue" = some n
              ∧ toml.node_value_unsigned 32 n = none) →
          (detail.parse_toml t).threads = { queue := 4, request := 8 })
      ∧ detail.parse_toml doc_queue_and_text_request = detail.parse_toml doc_queue_only := by
  refine ⟨?_, ?_, ?_, ?_, by decide⟩
  · intro t2 h_top h_threads
    rw [detail.parse_toml_fields, detail.parse_toml_fields,
      h_top "ip" (by decide), h_top "port" (by decide), h_top "timeout" (by decide),
      h_top "responses" (by decide), h_threads "queue" (by decide)]
  · intro v hv h
    rw [detail.parse_toml_fields]
    simp only [h, detail.read_value_uint32_of_integer v _ hv]
  · intro n v h hn
    rw [detail.parse_toml_fields]
    simp only [h, detail.read_value_uint32, toml.value_or_uint32, hn, Option.getD_some]
  · intro h
    rw [detail.parse_toml_fields]
    rcases h with h | ⟨n, h, hn⟩
    · simp only [h, detail.read_value_uint32, toml.value_or_uint32]
    · simp only [h, detail.read_value_uint32, toml.value_or_uint32, hn, Option.getD_none]

/-! ### Unsigned fields: no wrapping -/

theorem node_integer_cast_exact (bits : Nat) (hb : bits = 32 ∨ bits = 64) (i : Int) (r : Nat)
    (h : toml.node_integer_cast bits i = some r) (hi : i ≤ toml.int64_max) :
    (r : Int) = i := by
  obtain ⟨h0, hr, hlt⟩ := node_integer_cast_eq_some bits i r h
  unfold toml.int64_max at hi
  rcases hb with hb | hb
  · subst hb
    have h1 : i ≤ 2 ^ 32 - 1 := hlt (by decide)
    omega
  · subst hb
    omega

/-- Where the result of an unsigned read comes from: the default, the integer at the node,
the whole value of the floating-point number at the node, or the boolean at the node. -/
theorem unsigned_read_provenance (bits : Nat) (hb : bits = 32 ∨ bits = 64)
    (view : toml.node_view) (defv r : Nat)
    (hr : value_reader (toml.node_value_unsigned bits) view defv = r)
    (h_int64 : ∀ i, view = some (toml.node.integer i) → i ≤ toml.int64_max) :
    r = defv
      ∨ view = some (toml.node.integer (r : Int))
      ∨ (∃ d, view = some (toml.node.floating_point d) ∧ toml.fp_whole d = some (r : Int))
      ∨ (∃ b, view = some (toml.node.boolean b) ∧ r = if b then 1 else 0) := by
  cases view with
  | none => exact Or.inl hr.symm
  | some n =>
    cases hn : toml.node_value_unsigned bits n with
    | none =>
      left
      simp [value_reader, hn] at hr
      exact hr.symm
    | some v =>
      have hv : v = r := by simpa [value_reader, hn] using hr
      subst hv
      right
      rcases node_value_unsigned_eq_some bits n v hn with
        ⟨i, hi, hc⟩ | ⟨d, i, hd, hw, hc⟩ | ⟨b, hbn, hbv⟩
      · left
        have hx := node_integer_cast_exact bits hb i v hc (h_int64 i (by rw [hi]))
        rw [hi, hx]
      · right; left
        have hx := node_integer_cast_exact bits hb i v hc (fp_whole_range d i hw).2
        exact ⟨d, by rw [hd], by rw [hw, hx]⟩
      · right; right
        exact ⟨b, by rw [hbn], hbv⟩

/-- C15, as stated, fails at the document `timeout = true`: no integer appears in the
document, and the record built has `timeout = 1`, which is not the default 10000. -/
theorem detail.parse_toml_boolean_timeout :
    toml.entries_integers doc_timeout_true = []
      ∧ toml.table_index doc_timeout_true "timeout" = some (toml.node.boolean true)
      ∧ (detail.parse_toml doc_timeout_true).timeout = 1
      ∧ (detail.parse_toml doc_timeout_true).timeout ≠ server.default_constructed.timeout :=
  ⟨by decide, rfl, by decide, by decide⟩

/-- C15, amended: in a document whose integers are 64-bit signed integers, an integer that
is not representable in the type of an unsigned field (negative, or above `2 ^ 32 - 1` for
the thread counts) is not wrapped: `read_value` returns the supplied default for it, and the
field is built as its default.  Every built unsigned field is the field's default, or the
integer at the path read, unchanged and an integer of the document, or the whole value of a
floating-point number at that path, or 0 or 1 for a boolean at that path. -/
theorem detail.parse_toml_unsigned_not_wrapped (t : toml.table)
    (h_int64 : ∀ i ∈ toml.entries_integers t, toml.int64_min ≤ i ∧ i ≤ toml.int64_max) :
    (∀ (i : Int) (defv : Nat), i < 0 →
        detail.read_value_uint64 (some (toml.node.integer i)) defv = defv)
      ∧ (∀ (i : Int) (defv : Nat), (i < 0 ∨ 2 ^ 32 - 1 < i) →
        detail.read_value_uint32 (some (toml.node.integer i)) defv = defv)
      ∧ (∀ i : Int, i < 0 → toml.table_index t "timeout" = some (toml.node.integer i) →
        (detail.parse_toml t).timeout = 10000)
      ∧ (∀ i : Int, (i < 0 ∨ 2 ^ 32 - 1 < i) →
        toml.view_index (toml.table_index t "threads") "queue" = some (toml.node.integer i) →
        (detail.parse_toml t).threads = { queue := 4, request := 8 })
      ∧ ((detail.parse_toml t).timeout = 10000
        ∨ (toml.table_index t "timeout"
              = some (toml.node.integer ((detail.parse_toml t).timeout : Int))
            ∧ ((detail.parse_toml t).timeout : Int) ∈ toml.entries_integers t)
        ∨ (∃ d, toml.table_index t "timeout" = some (toml.node.floating_point d)
            ∧ toml.fp_whole d = some ((detail.parse_toml t).timeout : Int))
        ∨ (∃ b, toml.table_index t "timeout" = some (toml.node.boolean b)
            ∧ (detail.parse_toml t).timeout = if b then 1 else 0))
      ∧ ((detail.parse_toml t).threads.queue = 4
        ∨ (toml.view_index (toml.table_index t "threads") "queue"
              = some (toml.node.integer ((detail.parse_toml t).threads.queue : Int))
            ∧ ((detail.parse_toml t).threads.queue : Int) ∈ toml.entries_integers t)
        ∨ (∃ d, toml.view_index (toml.table_index t "threads") "queue"
              = some (toml.node.floating_point d)
            ∧ toml.fp_whole d = some ((detail.parse_toml t).threads.queue : Int))
        ∨ (∃ b, toml.view_index (toml.table_index t "threads") "queue"
              = some (toml.node.boolean b)
            ∧ (detail.parse_toml t).threads.queue = if b then 1 else 0))
      ∧ ((detail.parse_toml t).threads.request = 8
        ∨ (toml.view_index (toml.table_index t "threads") "queue"
              = some (toml.node.integer ((detail.parse_toml t).threads.request : Int))
            ∧ ((detail.parse_toml t).threads.request : Int) ∈ toml.entries_integers t)
        ∨ (∃ d, toml.view_index (toml.table_index t "threads") "queue"
              = some (toml.node.floating_point d)
            ∧ toml.fp_whole d = some ((detail.parse_toml t).threads.request : Int))
        ∨ (∃ b, toml.view_index (toml.table_index t "threads") "queue"
              = some (toml.node.boolean b)
            ∧ (detail.parse_toml t).threads.request = if b then 1 else 0)) := by
  have h64 : ∀ (i : Int) (defv : Nat), i < 0 →
      detail.read_value_uint64 (some (toml.node.integer i)) defv = defv := by
    intro i defv hi
    simp [detail.read_value_uint64, toml.value_or_uint64, toml.node_value_unsigned,
      node_integer_cast_of_negative 64 i hi]
  have h32 : ∀ (i : Int) (defv : Nat), (i < 0 ∨ 2 ^ 32 - 1 < i) →
      detail.read_value_uint32 (some (toml.node.integer i)) defv = defv := by
    intro i defv hi
    have hc : toml.node_integer_cast 32 i = none := by
      rcases hi with hi | hi
      · exact node_integer_cast_of_negative 32 i hi
      · exact node_integer_cast_32_of_large i hi
    simp [detail.read_value_uint32, toml.value_or_uint32, toml.node_value_unsigned, hc]
  have top : ∀ i, toml.table_index t "timeout" = some (toml.node.integer i) →
      i ∈ toml.entries_integers t := by
    intro i hi
    exact integers_of_table_index t "timeout" _ hi i (by simp [toml.node_integers])
  have nested : ∀ i,
      toml.view_index (toml.table_index t "threads") "queue" = some (toml.node.integer i) →
      i ∈ toml.entries_integers t := by
    intro i hi
    exact integers_of_view_index t "threads" "queue" _ hi i (by simp [toml.node_integers])
  have from_queue : ∀ defv r : Nat,
      detail.read_value_uint32 (toml.view_index (toml.table_index t "threads") "queue") defv
        = r →
      r = defv
        ∨ (toml.view_index (toml.table_index t "threads") "queue"
              = some (toml.node.integer (r : Int))
            ∧ (r : Int) ∈ toml.entries_integers t)
        ∨ (∃ d, toml.view_index (toml.table_index t "threads") "queue"
              = some (toml.node.floating_point d)
            ∧ toml.fp_whole d = some (r : Int))
        ∨ (∃ b, toml.view_index (toml.table_index t "threads") "queue"
              = some (toml.node.boolean b)
            ∧ r = if b then 1 else 0) := by
    intro defv r hr
    rw [(detail.read_value_as_value_reader _).2.2 defv] at hr
    rcases unsigned_read_provenance 32 (Or.inl rfl) _ defv r hr
        (fun i hi => (h_int64 i (nested i hi)).2) with h | h | h | h
    · exact Or.inl h
    · exact Or.inr (Or.inl ⟨h, nested _ h⟩)
    · exact Or.inr (Or.inr (Or.inl h))
    · exact Or.inr (Or.inr (Or.inr h))
  refine ⟨h64, h32, ?_, ?_, ?_, from_queue 4 _ rfl, from_queue 8 _ rfl⟩
  · intro i hi h
    show detail.read_value_uint64 (toml.table_index t "timeout") 10000 = 10000
    rw [h]
    exact h64 i _ hi
  · intro i hi h
    rw [detail.parse_toml_fields]
    simp only [h, h32 i _ hi]
  · have hr : value_reader (toml.node_value_unsigned 64) (toml.table_index t "timeout") 10000
        = (detail.parse_toml t).timeout :=
      ((detail.read_value_as_value_reader _).2.1 10000).symm
    rcases unsigned_read_provenance 64 (Or.inr rfl) _ 10000 _ hr
        (fun i hi => (h_int64 i (top i hi)).2) with h | h | h | h
    · exact Or.inl h
    · exact Or.inr (Or.inl ⟨h, top _ h⟩)
    · exact Or.inr (Or.inr (Or.inl h))
    · exact Or.inr (Or.inr (Or.inr h))

/-- C15, amended, at the document `timeout = -5` with `queue = 4294967296` and
`request = -1` in `threads`: its integers are 64-bit signed integers, none is representable
in the field read from it, and the unsigned fields are built as their defaults. -/
theorem detail.parse_toml_unsigned_not_wrapped_witness :
    (∀ i ∈ toml.entries_integers doc_unrepresentable,
        toml.int64_min ≤ i ∧ i ≤ toml.int64_max)
      ∧ (detail.parse_toml doc_unrepresentable).timeout = 10000
      ∧ (detail.parse_toml doc_unrepresentable).threads = { queue := 4, request := 8 } :=
  ⟨by decide,
   (detail.parse_toml_unsigned_not_wrapped doc_unrepresentable (by decide)).2.2.1
     (-5) (by decide) rfl,
   (detail.parse_toml_unsigned_not_wrapped doc_unrepresentable (by decide)).2.2.2.1
     4294967296 (Or.inr (by decide)) rfl⟩

end keep.config
